import Mathlib

/-!
Verification of the Welder-Desktop view layer against its design notes.

The development shallowly embeds the two components of the repository:

* `ChangesSidebar` (src/unnamed/part_000): a React component holding one
  piece of instance state, the cached autocompletion provider list, and a
  set of event handlers that translate UI events into dispatcher calls.
  Handlers are embedded as pure functions from the component's state to a
  list of emitted effects (console logging and dispatcher calls).
* `RepositoryView` (src/app/src/ui/repository.tsx): a React component whose
  render methods are embedded as pure functions producing a description of
  the rendered output, and whose key handler is embedded like the sidebar's
  handlers.

JavaScript reference identity (the `!==` comparison on the accounts array,
and the identity of the provider-list array allocated by each rebuild) is
modelled by tagging such objects with an allocation number (`refId`): two
objects are the same reference exactly when they carry the same tag, and a
rebuild allocates a fresh tag never used before.
-/

namespace Welder

/-- Modelled from the spec: tri-state inclusion selection of a
working-directory file (models/diff, not part of the excerpt): none,
partial or all of the file's changes are included. -/
inductive DiffSelectionType where
  | All
  | Partial
  | None
  deriving DecidableEq

/-- Modelled from the spec: the selection object carried by a
working-directory file change; the embedded code only calls its
`getSelectionType` accessor. -/
structure DiffSelection where
  selectionType : DiffSelectionType
  deriving DecidableEq

/-- `selection.getSelectionType()` of models/diff. -/
def DiffSelection.getSelectionType (s : DiffSelection) : DiffSelectionType :=
  s.selectionType

/-- A working-directory file change (models/status, declared outside the
excerpt): the embedded code reads its `path`, `id` and `selection`. -/
structure WorkingDirectoryFileChange where
  path : String
  id : String
  selection : DiffSelection
  deriving DecidableEq

/-- `WorkingDirectoryStatus` as consumed by the excerpt: the ordered file
list of the working directory. -/
structure WorkingDirectoryStatus where
  files : List WorkingDirectoryFileChange
  deriving DecidableEq

/-- `WorkingDirectoryStatus.findFileWithID`, modelled from its call site in
`RepositoryView.renderContent`: find the file whose `id` matches. -/
def findFileWithID (wd : WorkingDirectoryStatus) (fid : String) :
    Option WorkingDirectoryFileChange :=
  wd.files.find? (fun f => f.id == fid)

/-- The slice of `IChangesState` the embedded code reads. The `diff` payload
is irrelevant to the embedded logic and is carried as an opaque token. -/
structure IChangesState where
  workingDirectory : WorkingDirectoryStatus
  selectedFileID : Option String
  diff : Option Nat
  deriving DecidableEq

/-- A GitHub repository linked to a local repository; the embedded code
reads its `endpoint`. -/
structure GitHubRepository where
  endpoint : String
  deriving DecidableEq

/-- models/repository `Repository` as consumed by the excerpt: numeric
identity and the optional linked GitHub repository. -/
structure Repository where
  id : Nat
  gitHubRepository : Option GitHubRepository
  deriving DecidableEq

/-- models/account `Account` as consumed: only `endpoint` is compared;
`login` merely distinguishes accounts. -/
structure Account where
  endpoint : String
  login : String
  deriving DecidableEq

/-- The `accounts` prop is a JavaScript array compared by reference
(`props.accounts !== this.props.accounts`); `refId` models the array's
object identity, `accounts` its contents. -/
structure AccountsRef where
  refId : Nat
  accounts : List Account
  deriving DecidableEq

/-- lib/databases `IGitHubUser` as consumed: an opaque user profile. -/
structure IGitHubUser where
  login : String
  deriving DecidableEq

/-- commit-identity `CommitIdentity` as consumed: the embedded code reads
only the author's `email`. -/
structure CommitIdentity where
  name : String
  email : String
  deriving DecidableEq

/-- `IChangesSidebarProps` restricted to the fields the embedded handlers
and `receiveProps` read. Pure pass-through props (dispatcher, branch,
appStore, width, progress flags, mostRecentLocalCommit) carry no logic in
the excerpt and are omitted; the two store props are opaque tokens since
only their identity is forwarded into providers. -/
structure IChangesSidebarProps where
  repository : Repository
  changes : IChangesState
  commitAuthor : Option CommitIdentity
  gitHubUsers : List (String × IGitHubUser)
  emoji : List (String × String)
  issuesStore : Nat
  gitHubUserStore : Nat
  askForConfirmationOnDiscardChanges : Bool
  accounts : AccountsRef
  deriving DecidableEq

/-- The closed set of autocompletion providers the sidebar constructs
(../autocompletion, declared outside the excerpt), each recorded with the
constructor arguments the excerpt passes. -/
inductive AutocompletionProvider where
  | emoji (emojiMap : List (String × String))
  | issues (issuesStore : Nat) (gitHubRepository : GitHubRepository)
  | user (gitHubUserStore : Nat) (gitHubRepository : GitHubRepository)
      (account : Option Account)
  deriving DecidableEq

/-- The provider-list array stored in `this.autocompletionProviders`:
`refId` models the array object's identity (fresh per rebuild),
`providers` its contents. -/
structure ProvidersRef where
  refId : Nat
  providers : List AutocompletionProvider
  deriving DecidableEq

/-- The `ChangesSidebar` component instance: its current props, the cached
provider list (null before the first build) and the next fresh allocation
tag for provider-list arrays. -/
structure ChangesSidebar where
  props : IChangesSidebarProps
  autocompletionProviders : Option ProvidersRef
  nextRefId : Nat
  deriving DecidableEq

/-- The guard of `receiveProps` (part_000 lines 61-65):
`props.repository.id !== this.props.repository.id ||
 !this.autocompletionProviders || props.accounts !== this.props.accounts`. -/
def rebuildCondition (self : ChangesSidebar) (props : IChangesSidebarProps) :
    Bool :=
  (props.repository.id != self.props.repository.id) ||
    self.autocompletionProviders.isNone ||
    (props.accounts.refId != self.props.accounts.refId)

/-- The provider array built inside `receiveProps` (part_000 lines 66-92):
an emoji provider from `this.props.emoji`; when the incoming repository has
a linked GitHub repository, additionally an issues provider and a user
provider bound to the account found in `this.props.accounts` by endpoint
(the push is unconditional; the account may be absent). -/
def buildAutocompletionProviders (self : ChangesSidebar)
    (props : IChangesSidebarProps) : List AutocompletionProvider :=
  match props.repository.gitHubRepository with
  | none => [AutocompletionProvider.emoji self.props.emoji]
  | some gitHubRepository =>
    let account := self.props.accounts.accounts.find?
      (fun a => a.endpoint == gitHubRepository.endpoint)
    [AutocompletionProvider.emoji self.props.emoji,
     AutocompletionProvider.issues props.issuesStore gitHubRepository,
     AutocompletionProvider.user props.gitHubUserStore gitHubRepository
       account]

/-- `ChangesSidebar.receiveProps` (part_000 lines 60-96) followed by React's
installation of the incoming props as `this.props`. A rebuild stores a
freshly allocated array (fresh `refId`); otherwise the cached array is left
untouched. -/
def receiveProps (self : ChangesSidebar) (props : IChangesSidebarProps) :
    ChangesSidebar :=
  if rebuildCondition self props then
    { props := props
      autocompletionProviders :=
        some { refId := self.nextRefId
               providers := buildAutocompletionProviders self props }
      nextRefId := self.nextRefId + 1 }
  else
    { self with props := props }

/-- The constructor (part_000 lines 50-54): `super(props)` installs
`this.props := props`, then `receiveProps(props)` runs with no cached
provider list yet. -/
def construct (props : IChangesSidebarProps) (startRefId : Nat) :
    ChangesSidebar :=
  receiveProps
    { props := props, autocompletionProviders := none
      nextRefId := startRefId } props

/-- A component that was constructed and then received a sequence of
property updates (each delivered through `componentWillReceiveProps`, which
just calls `receiveProps`). -/
def runUpdates (init : IChangesSidebarProps) (startRefId : Nat)
    (updates : List IChangesSidebarProps) : ChangesSidebar :=
  updates.foldl receiveProps (construct init startRefId)

/-- Allocation discipline: every stored provider array carries a tag below
the next fresh tag. -/
def ProvidersWF (self : ChangesSidebar) : Prop :=
  ∀ r, self.autocompletionProviders = some r → r.refId < self.nextRefId

/-! ### Observations over provider lists -/

/-- Number of emoji providers in a list. -/
def countEmoji : List AutocompletionProvider → Nat
  | [] => 0
  | AutocompletionProvider.emoji _ :: rest => countEmoji rest + 1
  | _ :: rest => countEmoji rest

/-- Number of issues providers in a list. -/
def countIssues : List AutocompletionProvider → Nat
  | [] => 0
  | AutocompletionProvider.issues _ _ :: rest => countIssues rest + 1
  | _ :: rest => countIssues rest

/-- Number of user providers in a list. -/
def countUser : List AutocompletionProvider → Nat
  | [] => 0
  | AutocompletionProvider.user _ _ _ :: rest => countUser rest + 1
  | _ :: rest => countUser rest

/-- The emoji maps the emoji providers of a list were constructed from. -/
def emojiMapsOf : List AutocompletionProvider → List (List (String × String))
  | [] => []
  | AutocompletionProvider.emoji m :: rest => m :: emojiMapsOf rest
  | _ :: rest => emojiMapsOf rest

/-- The (optional) accounts the user providers of a list were bound to. -/
def userProviderAccountsOf : List AutocompletionProvider → List (Option Account)
  | [] => []
  | AutocompletionProvider.user _ _ a :: rest => a :: userProviderAccountsOf rest
  | _ :: rest => userProviderAccountsOf rest

/-! ### Effects emitted by the event handlers -/

/-- The dispatcher operations the excerpt invokes, with the arguments it
passes. `changeChangesSelection` forwards `files[row]`, which in JavaScript
may be `undefined`, hence the `Option`. -/
inductive DispatcherCall where
  | changeChangesSelection (repository : Repository)
      (file : Option WorkingDirectoryFileChange)
  | changeFileIncluded (repository : Repository)
      (file : WorkingDirectoryFileChange) (includeFlag : Bool)
  | changeIncludeAllFiles (repository : Repository) (selectAll : Bool)
  | discardChanges (repository : Repository)
      (files : List WorkingDirectoryFileChange)
  | showPopupConfirmDiscardChanges (repository : Repository)
      (files : List WorkingDirectoryFileChange)
  | ignorePattern (repository : Repository) (pattern : String)
  | revealInFileManager (repository : Repository) (path : String)
  | changeRepositorySection (repository : Repository) (sectionValue : Nat)
  deriving DecidableEq

/-- An observable effect of a handler: a diagnostic log line
(`console.error`) or a dispatcher call. -/
inductive Effect where
  | consoleError (message : String)
  | dispatch (call : DispatcherCall)
  deriving DecidableEq

/-- `ChangesSidebar.onFileSelectionChanged` (part_000 lines 111-114): reads
`files[row]` without any existence check and forwards it (possibly
`undefined`) to `dispatcher.changeChangesSelection`. -/
def onFileSelectionChanged (self : ChangesSidebar) (row : Nat) : List Effect :=
  let file := self.props.changes.workingDirectory.files.get? row
  [Effect.dispatch (DispatcherCall.changeChangesSelection
    self.props.repository file)]

/-- `ChangesSidebar.onIncludeChanged` (part_000 lines 116-132): looks the
file up by path; on a miss logs and returns, otherwise dispatches
`changeFileIncluded`. -/
def onIncludeChanged (self : ChangesSidebar) (path : String)
    (includeFlag : Bool) : List Effect :=
  match self.props.changes.workingDirectory.files.find?
      (fun f => f.path == path) with
  | none =>
    [Effect.consoleError
      ("unable to find working directory file to apply included change: "
        ++ path)]
  | some file =>
    [Effect.dispatch (DispatcherCall.changeFileIncluded
      self.props.repository file includeFlag)]

/-- `ChangesSidebar.onSelectAll` (part_000 lines 134-139). -/
def onSelectAll (self : ChangesSidebar) (selectAll : Bool) : List Effect :=
  [Effect.dispatch (DispatcherCall.changeIncludeAllFiles
    self.props.repository selectAll)]

/-- `ChangesSidebar.onDiscardChanges` (part_000 lines 141-151): direct
discard of the single file when confirmation is off, otherwise a
confirm-discard popup carrying that file. -/
def onDiscardChanges (self : ChangesSidebar)
    (file : WorkingDirectoryFileChange) : List Effect :=
  if !self.props.askForConfirmationOnDiscardChanges then
    [Effect.dispatch (DispatcherCall.discardChanges
      self.props.repository [file])]
  else
    [Effect.dispatch (DispatcherCall.showPopupConfirmDiscardChanges
      self.props.repository [file])]

/-- `ChangesSidebar.onDiscardAllChanges` (part_000 lines 153-165): the bulk
variant of `onDiscardChanges`. -/
def onDiscardAllChanges (self : ChangesSidebar)
    (files : List WorkingDirectoryFileChange) : List Effect :=
  if !self.props.askForConfirmationOnDiscardChanges then
    [Effect.dispatch (DispatcherCall.discardChanges
      self.props.repository files)]
  else
    [Effect.dispatch (DispatcherCall.showPopupConfirmDiscardChanges
      self.props.repository files)]

/-- `ChangesSidebar.onIgnore` (part_000 lines 167-169). -/
def onIgnore (self : ChangesSidebar) (pattern : String) : List Effect :=
  [Effect.dispatch (DispatcherCall.ignorePattern
    self.props.repository pattern)]

/-- `ChangesSidebar.onToggleInclude` (part_000 lines 194-210): reads
`files[row]`; on a miss logs and returns; otherwise dispatches
`changeFileIncluded` with the flag `currentSelection === None`. -/
def onToggleInclude (self : ChangesSidebar) (row : Nat) : List Effect :=
  match self.props.changes.workingDirectory.files.get? row with
  | none =>
    [Effect.consoleError "keyboard selection toggle despite no file - what?"]
  | some file =>
    let currentSelection := file.selection.getSelectionType
    [Effect.dispatch (DispatcherCall.changeFileIncluded
      self.props.repository file
      (decide (currentSelection = DiffSelectionType.None)))]

/-- Modelled from the spec: the `ClickSource.kind` discriminator of
ui/lib/list — keyboard-sourced versus pointer-sourced row activation. -/
inductive ClickSourceKind where
  | keyboard
  | mouse
  deriving DecidableEq

/-- The click source delivered with a row click. -/
structure ClickSource where
  kind : ClickSourceKind
  deriving DecidableEq

/-- `ChangesSidebar.onChangedItemClick` (part_000 lines 216-222): only a
keyboard-sourced activation triggers the inclusion toggle. -/
def onChangedItemClick (self : ChangesSidebar) (row : Nat)
    (source : ClickSource) : List Effect :=
  if source.kind = ClickSourceKind.keyboard then
    onToggleInclude self row
  else
    []

/-- JavaScript's `String.prototype.toLowerCase` as consumed by the render
code: character-wise lowering, modelled by mapping `Char.toLower` over the
string's characters. -/
def toLowerCase (s : String) : String :=
  String.mk (s.data.map Char.toLower)

/-- The user-profile derivation of `ChangesSidebar.render` (part_000 lines
228-232): `const email = commitAuthor ? commitAuthor.email : null` and
`if (email) user = gitHubUsers.get(email.toLowerCase()) || null`. A null
author, and also the empty-string email (falsy in JavaScript), skip the
lookup. -/
def sidebarGitHubUser (self : ChangesSidebar) : Option IGitHubUser :=
  match self.props.commitAuthor with
  | none => none
  | some author =>
    if author.email = "" then none
    else self.props.gitHubUsers.lookup (toLowerCase author.email)

/-! ### Observations over emitted effects -/

/-- The file sets carried by direct `discardChanges` dispatches. -/
def directDiscardFileSets :
    List Effect → List (List WorkingDirectoryFileChange)
  | [] => []
  | Effect.dispatch (DispatcherCall.discardChanges _ files) :: rest =>
    files :: directDiscardFileSets rest
  | _ :: rest => directDiscardFileSets rest

/-- The file sets carried by confirm-discard popup dispatches. -/
def confirmPopupFileSets :
    List Effect → List (List WorkingDirectoryFileChange)
  | [] => []
  | Effect.dispatch (DispatcherCall.showPopupConfirmDiscardChanges _ files)
      :: rest =>
    files :: confirmPopupFileSets rest
  | _ :: rest => confirmPopupFileSets rest

/-! ### RepositoryView (src/app/src/ui/repository.tsx) -/

/-- `RepositorySection` is a two-member const enum declared in
lib/app-state (outside the excerpt); modelled by its runtime numeric
values so that an out-of-range value is expressible. `Changes` member. -/
def RepositorySection.Changes : Nat := 0

/-- `RepositorySection.History` member. -/
def RepositorySection.History : Nat := 1

/-- The local `Tab` const enum of repository.tsx. -/
inductive Tab where
  | Changes
  | History
  deriving DecidableEq

/-- The slice of `IRepositoryState` the embedded render code reads: the
selected section (a `RepositorySection` runtime value) and the changes
state. -/
structure IRepositoryState where
  selectedSection : Nat
  changesState : IChangesState
  deriving DecidableEq

/-- `IRepositoryProps` restricted to the fields the embedded render and
key-handling code reads; pure pass-through props are omitted. -/
structure IRepositoryProps where
  repository : Repository
  state : IRepositoryState
  sidebarWidth : Int
  deriving DecidableEq

/-- A fatal programming error (lib/fatal-error's thrown error). -/
structure FatalError where
  message : String
  deriving DecidableEq

/-- Modelled from the spec: `assertNever` (lib/fatal-error, outside the
excerpt) halts with a fatal programming error carrying the given message. -/
def assertNever (message : String) : FatalError :=
  { message := message }

/-- The content panel `renderContent` selects. -/
inductive ContentPanel where
  | noChanges
  | changesPanel (file : WorkingDirectoryFileChange) (diff : Nat)
  | historyPanel
  deriving DecidableEq

/-- The tab bar as rendered by `RepositoryView.renderTabs` (lines 48-72):
the selected index, and whether the Changes tab shows its dot indicator. -/
structure TabBarView where
  selectedIndex : Tab
  showChangesIndicator : Bool
  deriving DecidableEq

/-- `RepositoryView.renderTabs`: `selectedSection === Changes ? Changes :
History`, and the indicator exactly when the working directory has files. -/
def renderTabs (p : IRepositoryProps) : TabBarView :=
  { selectedIndex :=
      if p.state.selectedSection = RepositorySection.Changes then Tab.Changes
      else Tab.History
    showChangesIndicator :=
      decide (0 < p.state.changesState.workingDirectory.files.length) }

/-- A panel of the sidebar output of `RepositoryView.renderSidebar`, each
recorded with the props the excerpt computes for it. -/
inductive SidebarPanel where
  | tabBarPanel (view : TabBarView)
  | changesSidebarPanel (repository : Repository) (availableWidth : Int)
  | historySidebarPanel (repository : Repository)
  deriving DecidableEq

/-- `RepositoryView.renderSidebar` (lines 161-182): the tab bar, then both
the changes sidebar (with `availableWidth = sidebarWidth - 1`, computed in
`renderChangesSidebar`) and the history sidebar, side by side,
unconditionally. -/
def renderSidebar (p : IRepositoryProps) : List SidebarPanel :=
  [SidebarPanel.tabBarPanel (renderTabs p),
   SidebarPanel.changesSidebarPanel p.repository (p.sidebarWidth - 1),
   SidebarPanel.historySidebarPanel p.repository]

/-- `RepositoryView.renderContent` (lines 184-227): for the Changes section
select the NoChanges or the Changes panel; for History the History panel;
otherwise `assertNever`, a fatal error. -/
def renderContent (p : IRepositoryProps) : Except FatalError ContentPanel :=
  let selectedSection := p.state.selectedSection
  if selectedSection = RepositorySection.Changes then
    let changesState := p.state.changesState
    let selectedFile :=
      match changesState.selectedFileID with
      | some fid => findFileWithID changesState.workingDirectory fid
      | none => none
    match changesState.workingDirectory.files, selectedFile,
        changesState.diff with
    | [], _, _ => Except.ok ContentPanel.noChanges
    | _ :: _, some file, some diff =>
      Except.ok (ContentPanel.changesPanel file diff)
    | _, _, _ => Except.ok ContentPanel.noChanges
  else if selectedSection = RepositorySection.History then
    Except.ok ContentPanel.historyPanel
  else
    Except.error (assertNever "Unknown repository section")

/-- The rendered output of `RepositoryView.render`: the sidebar panels and
the (optional) content panel. -/
structure RenderOutput where
  panels : List SidebarPanel
  content : Option ContentPanel
  deriving DecidableEq

/-- `RepositoryView.render` (lines 229-236): the sidebar, and
`{false && this.renderContent()}` — the `&&` short-circuits on `false`, so
`renderContent` is never invoked and no content panel appears; rendering
itself cannot fail. -/
def render (p : IRepositoryProps) : Except FatalError RenderOutput :=
  Except.ok { panels := renderSidebar p, content := none }

/-- A browser keyboard event as read by `onKeyDown`. -/
structure KeyboardEvent where
  ctrlKey : Bool
  key : String
  deriving DecidableEq

/-- `RepositoryView.onKeyDown` (lines 246-262): on Ctrl+Tab dispatch a
section change (History selected goes to Changes, anything else goes to
History) and prevent the default action; otherwise do nothing. Returns the
emitted effects and whether the default action was prevented. -/
def onKeyDown (p : IRepositoryProps) (e : KeyboardEvent) :
    List Effect × Bool :=
  if e.ctrlKey && (e.key == "Tab") then
    let sectionValue :=
      if p.state.selectedSection = RepositorySection.History then
        RepositorySection.Changes
      else
        RepositorySection.History
    ([Effect.dispatch (DispatcherCall.changeRepositorySection
        p.repository sectionValue)], true)
  else
    ([], false)

/-! ### Concrete inputs used by counterexamples and witnesses -/

/-- An empty changes state. -/
def emptyChanges : IChangesState :=
  { workingDirectory := { files := [] }, selectedFileID := none, diff := none }

/-- A baseline sidebar props value: repository 1 with no linked GitHub
repository, nothing else set. -/
def baseSidebarProps : IChangesSidebarProps :=
  { repository := { id := 1, gitHubRepository := none }
    changes := emptyChanges
    commitAuthor := none
    gitHubUsers := []
    emoji := []
    issuesStore := 0
    gitHubUserStore := 0
    askForConfirmationOnDiscardChanges := false
    accounts := { refId := 0, accounts := [] } }

/-- The linked GitHub repository used by the C2 counterexample. -/
def c2GitHub : GitHubRepository := { endpoint := "https://api.github.com" }

/-- C2 counterexample props: a linked GitHub repository and an empty
accounts list. -/
def c2Props : IChangesSidebarProps :=
  { baseSidebarProps with
    repository := { id := 1, gitHubRepository := some c2GitHub } }

/-- The provider list the code builds for `c2Props`. -/
def c2BuiltProviders : List AutocompletionProvider :=
  [AutocompletionProvider.emoji [],
   AutocompletionProvider.issues 0 c2GitHub,
   AutocompletionProvider.user 0 c2GitHub none]

/-- C3 component: constructed over the baseline props (no files at all). -/
def c3Self : ChangesSidebar := construct baseSidebarProps 0

/-- C4 props: a selected-section runtime value (2) that is neither
`RepositorySection.Changes` (0) nor `RepositorySection.History` (1). -/
def c4Props : IRepositoryProps :=
  { repository := { id := 7, gitHubRepository := none }
    state := { selectedSection := 2, changesState := emptyChanges }
    sidebarWidth := 250 }

/-- C6 witness file: selection state none at row 0. -/
def w6File : WorkingDirectoryFileChange :=
  { path := "a.txt", id := "1", selection := { selectionType := DiffSelectionType.None } }

/-- C6 witness component: one file, at row 0. -/
def w6Self : ChangesSidebar :=
  construct
    { baseSidebarProps with
      changes :=
        { workingDirectory := { files := [w6File] }
          selectedFileID := none, diff := none } } 0

/-- C7 witness props with History selected. -/
def w7p : IRepositoryProps :=
  { repository := { id := 3, gitHubRepository := none }
    state := { selectedSection := 1, changesState := emptyChanges }
    sidebarWidth := 250 }

/-- C7 witness props with Changes selected. -/
def w7q : IRepositoryProps :=
  { repository := { id := 4, gitHubRepository := none }
    state := { selectedSection := 0, changesState := emptyChanges }
    sidebarWidth := 250 }

/-- C7 witness event: Ctrl+Tab. -/
def w7TabEvent : KeyboardEvent := { ctrlKey := true, key := "Tab" }

/-- C7 witness event: Ctrl+A, not the tab-cycle combination. -/
def w7OtherEvent : KeyboardEvent := { ctrlKey := true, key := "a" }

/-- C8 witness author with a mixed-case email. -/
def w8Author : CommitIdentity := { name := "Jane", email := "Jane@Example.com" }

/-- C8 witness profile. -/
def w8User : IGitHubUser := { login := "jane" }

/-- C8 witness component: profile keyed at the lower-cased email. -/
def w8s1 : ChangesSidebar :=
  construct
    { baseSidebarProps with
      commitAuthor := some w8Author
      gitHubUsers := [("jane@example.com", w8User)] } 0

/-- C8 witness component with no commit author. -/
def w8s2 : ChangesSidebar := construct baseSidebarProps 0

/-- C8 witness author with an empty email. -/
def w8Author3 : CommitIdentity := { name := "X", email := "" }

/-- C8 witness component whose author has an empty email. -/
def w8s3 : ChangesSidebar :=
  construct { baseSidebarProps with commitAuthor := some w8Author3 } 0

/-- C8 counterexample author: present, but with the empty-string email. -/
def c8Author : CommitIdentity := { name := "Ghost", email := "" }

/-- C8 counterexample profile, keyed at the empty string. -/
def c8User : IGitHubUser := { login := "ghost" }

/-- C8 counterexample component: the profile map holds the key that the
lower-cased author email would produce, yet the code never looks it up. -/
def c8Self : ChangesSidebar :=
  construct
    { baseSidebarProps with
      commitAuthor := some c8Author
      gitHubUsers := [("", c8User)] } 0

/-- C10 witness: the account in the previous accounts list matching the
incoming repository's endpoint. -/
def w10Account : Account :=
  { endpoint := "https://api.github.com", login := "olduser" }

/-- C10 witness: the previous props (their emoji map and accounts list are
the ones a rebuild must read). -/
def w10OldProps : IChangesSidebarProps :=
  { baseSidebarProps with
    emoji := [("old", "o")]
    accounts := { refId := 5, accounts := [w10Account] } }

/-- C10 witness: the incoming props, with a different repository id (so a
rebuild fires), a different emoji map and a different, empty accounts
list. -/
def w10NewProps : IChangesSidebarProps :=
  { baseSidebarProps with
    repository := { id := 2, gitHubRepository := some c2GitHub }
    emoji := [("new", "n")]
    accounts := { refId := 6, accounts := [] } }

/-- C10 witness component holding the previous props. -/
def w10Self : ChangesSidebar := construct w10OldProps 0

/-! ## Theorems -/

/-- The boolean rebuild guard, as a proposition. -/
theorem rebuildCondition_eq_true_iff (self : ChangesSidebar)
    (p : IChangesSidebarProps) :
    rebuildCondition self p = true ↔
      (p.repository.id ≠ self.props.repository.id ∨
       self.autocompletionProviders = none ∨
       p.accounts.refId ≠ self.props.accounts.refId) := by
  simp [rebuildCondition, Option.isNone_iff_eq_none, or_assoc]

/-- `receiveProps` preserves the allocation discipline. -/
theorem receiveProps_wf (self : ChangesSidebar) (p : IChangesSidebarProps)
    (h : ProvidersWF self) : ProvidersWF (receiveProps self p) := by
  unfold receiveProps
  split
  · intro r hr
    have hx := Option.some.inj hr
    rw [← hx]
    exact Nat.lt_succ_self _
  · intro r hr
    exact h r hr

/-- A freshly constructed component satisfies the allocation discipline. -/
theorem construct_wf (props : IChangesSidebarProps) (startRefId : Nat) :
    ProvidersWF (construct props startRefId) :=
  receiveProps_wf _ _ (fun _ hr => Option.noConfusion hr)

/-- Folding property updates preserves the allocation discipline. -/
theorem foldl_receiveProps_wf (l : List IChangesSidebarProps)
    (acc : ChangesSidebar) (h : ProvidersWF acc) :
    ProvidersWF (l.foldl receiveProps acc) := by
  induction l generalizing acc with
  | nil => exact h
  | cons x xs ih => exact ih _ (receiveProps_wf _ _ h)

/-- Every reachable component state satisfies the allocation discipline. -/
theorem runUpdates_wf (init : IChangesSidebarProps) (startRefId : Nat)
    (updates : List IChangesSidebarProps) :
    ProvidersWF (runUpdates init startRefId updates) :=
  foldl_receiveProps_wf _ _ (construct_wf _ _)

/-- When the guard fires, the stored provider array is a different
reference from the previous one. -/
theorem receiveProps_rebuild_ne (self : ChangesSidebar)
    (p : IChangesSidebarProps) (hwf : ProvidersWF self)
    (h : rebuildCondition self p = true) :
    (receiveProps self p).autocompletionProviders ≠
      self.autocompletionProviders := by
  simp only [receiveProps, h, if_true]
  intro heq
  cases hsp : self.autocompletionProviders with
  | none => rw [hsp] at heq; exact Option.noConfusion heq
  | some r =>
    rw [hsp] at heq
    have hx := Option.some.inj heq
    have hlt := hwf r hsp
    rw [← hx] at hlt
    exact Nat.lt_irrefl _ hlt

/-- When the guard does not fire, the cached provider array is left
untouched. -/
theorem receiveProps_stable (self : ChangesSidebar) (p : IChangesSidebarProps)
    (h : rebuildCondition self p = false) :
    (receiveProps self p).autocompletionProviders =
      self.autocompletionProviders := by
  simp [receiveProps, h]

/-- C1: for every sequence of property updates delivered to
`ChangesSidebar` (including construction, which always builds a first
list), the autocompletion provider list is rebuilt (a different list
reference is stored) if and only if the incoming repository id differs
from the current one, or the incoming accounts array is a different
reference from the current one, or no provider list exists yet; in every
other update the previously built list object is reused unchanged (the
same reference). -/
theorem c1_provider_cache_rebuild_iff (init next : IChangesSidebarProps)
    (startRefId : Nat) (updates : List IChangesSidebarProps) :
    (construct init startRefId).autocompletionProviders.isSome = true ∧
    ((receiveProps (runUpdates init startRefId updates) next).autocompletionProviders ≠
        (runUpdates init startRefId updates).autocompletionProviders ↔
      (next.repository.id ≠ (runUpdates init startRefId updates).props.repository.id ∨
       (runUpdates init startRefId updates).autocompletionProviders = none ∨
       next.accounts.refId ≠ (runUpdates init startRefId updates).props.accounts.refId)) := by
  constructor
  · simp [construct, receiveProps, rebuildCondition]
  · constructor
    · intro hne
      cases hb : rebuildCondition (runUpdates init startRefId updates) next with
      | true => exact (rebuildCondition_eq_true_iff _ _).mp hb
      | false => exact absurd (receiveProps_stable _ _ hb) hne
    · intro hrhs
      exact receiveProps_rebuild_ne _ _ (runUpdates_wf init startRefId updates)
        ((rebuildCondition_eq_true_iff _ _).mpr hrhs)

/-- C2 counterexample: for a repository with a linked GitHub repository and
an empty accounts list (so no account's endpoint matches), the list built
at construction nevertheless contains a user provider — the code pushes it
unconditionally, bound to no account — refuting "contains a third (user)
provider exactly when the accounts list holds an account whose endpoint
equals the linked repository's endpoint". -/
theorem c2_user_provider_without_matching_account :
    c2Props.accounts.accounts = [] ∧
    (construct c2Props 0).autocompletionProviders =
      some { refId := 0, providers := c2BuiltProviders } ∧
    countUser c2BuiltProviders = 1 := by
  refine ⟨rfl, by decide, rfl⟩

/-- C2 (amended): whenever the provider list is rebuilt, a repository with
no linked GitHub repository yields exactly one provider (emoji); a linked
GitHub repository yields exactly three (emoji, issues and user), where the
user provider is bound to the matching account by endpoint from the
previous accounts list when one exists, and to no account otherwise. -/
theorem c2_provider_list_shape (self : ChangesSidebar)
    (props : IChangesSidebarProps) :
    countEmoji (buildAutocompletionProviders self props) = 1 ∧
    countIssues (buildAutocompletionProviders self props) =
      (if props.repository.gitHubRepository.isSome then 1 else 0) ∧
    countUser (buildAutocompletionProviders self props) =
      (if props.repository.gitHubRepository.isSome then 1 else 0) ∧
    (buildAutocompletionProviders self props).length =
      (if props.repository.gitHubRepository.isSome then 3 else 1) ∧
    userProviderAccountsOf (buildAutocompletionProviders self props) =
      (match props.repository.gitHubRepository with
       | none => []
       | some gh =>
         [self.props.accounts.accounts.find?
           (fun a => a.endpoint == gh.endpoint)]) := by
  cases hgh : props.repository.gitHubRepository <;>
    simp [buildAutocompletionProviders, hgh, countEmoji, countIssues,
      countUser, userProviderAccountsOf]

/-- C3 counterexample: with no file at row 0, `onFileSelectionChanged`
does not log the miss and still makes a dispatcher call, forwarding no
file — refuting "the miss is logged to diagnostic output and ... no
dispatcher call is made" for the row-index path through
`onFileSelectionChanged`. -/
theorem c3_file_selection_dispatches_on_miss :
    c3Self.props.changes.workingDirectory.files.get? 0 = none ∧
    onFileSelectionChanged c3Self 0 =
      [Effect.dispatch (DispatcherCall.changeChangesSelection
        c3Self.props.repository none)] := by
  refine ⟨rfl, rfl⟩

/-- C3 (amended): for `onIncludeChanged` (by path) and `onToggleInclude`
(by row) a lookup miss is logged to diagnostic output and the action is
dropped with no dispatcher call; `onFileSelectionChanged`, however,
performs no existence check: on a miss it logs nothing and still calls the
dispatcher, forwarding no file. -/
theorem c3_lookup_miss_handling (self : ChangesSidebar) (path : String)
    (includeFlag : Bool) (row : Nat)
    (hpath : self.props.changes.workingDirectory.files.find?
      (fun f => f.path == path) = none)
    (hrow : self.props.changes.workingDirectory.files.get? row = none) :
    onIncludeChanged self path includeFlag =
      [Effect.consoleError
        ("unable to find working directory file to apply included change: "
          ++ path)] ∧
    onToggleInclude self row =
      [Effect.consoleError
        "keyboard selection toggle despite no file - what?"] ∧
    onFileSelectionChanged self row =
      [Effect.dispatch (DispatcherCall.changeChangesSelection
        self.props.repository none)] := by
  have hrow' : self.props.changes.workingDirectory.files[row]? = none := by
    rw [← List.get?_eq_getElem?]
    exact hrow
  refine ⟨?_, ?_, ?_⟩
  · simp [onIncludeChanged, hpath]
  · simp [onToggleInclude, hrow']
  · simp [onFileSelectionChanged, hrow']

/-- C3 witness: at the component with an empty working directory, a path
and a row with no file behind them behave as the amended claim states. -/
theorem c3_lookup_miss_handling_witness :
    onIncludeChanged c3Self "missing.txt" true =
      [Effect.consoleError
        ("unable to find working directory file to apply included change: "
          ++ "missing.txt")] ∧
    onToggleInclude c3Self 0 =
      [Effect.consoleError
        "keyboard selection toggle despite no file - what?"] ∧
    onFileSelectionChanged c3Self 0 =
      [Effect.dispatch (DispatcherCall.changeChangesSelection
        c3Self.props.repository none)] :=
  c3_lookup_miss_handling c3Self "missing.txt" true 0 rfl rfl

/-- C4 counterexample: with the selected-section runtime value 2 — neither
`RepositorySection.Changes` (0) nor `RepositorySection.History` (1) —
`RepositoryView.render` completes normally (the content expression
`false && renderContent()` short-circuits, so the exhaustiveness check is
never reached), refuting "rendering halts with a fatal programming
error". -/
theorem c4_render_completes_on_unknown_section :
    RepositorySection.Changes = 0 ∧
    RepositorySection.History = 1 ∧
    c4Props.state.selectedSection = 2 ∧
    (render c4Props).isOk = true := by
  refine ⟨rfl, rfl, rfl, rfl⟩

/-- C4 (amended): for a selected-section value that is neither Changes nor
History, `renderContent` — were it invoked — halts with the fatal
"Unknown repository section" programming error; but `render` never invokes
it (`false &&` short-circuits), so rendering completes normally and the
tab bar treats the unrecognized value as History. -/
theorem c4_unknown_section_behavior (p : IRepositoryProps)
    (h0 : p.state.selectedSection ≠ RepositorySection.Changes)
    (h1 : p.state.selectedSection ≠ RepositorySection.History) :
    renderContent p =
      Except.error (assertNever "Unknown repository section") ∧
    (render p).isOk = true ∧
    (renderTabs p).selectedIndex = Tab.History := by
  refine ⟨?_, rfl, ?_⟩
  · simp [renderContent, h0, h1]
  · simp [renderTabs, h0]

/-- C4 witness: the amended claim at the concrete props whose section
value is 2. -/
theorem c4_unknown_section_behavior_witness :
    renderContent c4Props =
      Except.error (assertNever "Unknown repository section") ∧
    (render c4Props).isOk = true ∧
    (renderTabs c4Props).selectedIndex = Tab.History :=
  c4_unknown_section_behavior c4Props (by decide) (by decide)

/-- C5: for every discard request, single or bulk, each handler emits
exactly one effect; when `askForConfirmationOnDiscardChanges` is false the
dispatcher's discard operation is invoked directly with exactly the target
file set and no popup is requested, and when it is true a confirm-discard
popup request carries exactly the target file set and no direct discard
occurs. -/
theorem c5_discard_confirmation_routing (self : ChangesSidebar)
    (file : WorkingDirectoryFileChange)
    (files : List WorkingDirectoryFileChange) :
    (onDiscardChanges self file).length = 1 ∧
    (onDiscardAllChanges self files).length = 1 ∧
    directDiscardFileSets (onDiscardChanges self file) =
      (if self.props.askForConfirmationOnDiscardChanges then []
       else [[file]]) ∧
    confirmPopupFileSets (onDiscardChanges self file) =
      (if self.props.askForConfirmationOnDiscardChanges then [[file]]
       else []) ∧
    directDiscardFileSets (onDiscardAllChanges self files) =
      (if self.props.askForConfirmationOnDiscardChanges then []
       else [files]) ∧
    confirmPopupFileSets (onDiscardAllChanges self files) =
      (if self.props.askForConfirmationOnDiscardChanges then [files]
       else []) := by
  cases h : self.props.askForConfirmationOnDiscardChanges <;>
    simp [onDiscardChanges, onDiscardAllChanges, h,
      directDiscardFileSets, confirmPopupFileSets]

/-- C6: a keyboard-sourced row toggle on a row holding a valid file asks
the dispatcher to set the file's inclusion flag to true exactly when the
file's current selection state is none, and to false for any other
selection state. -/
theorem c6_keyboard_toggle_inclusion (self : ChangesSidebar) (row : Nat)
    (file : WorkingDirectoryFileChange)
    (h : self.props.changes.workingDirectory.files.get? row = some file) :
    onChangedItemClick self row { kind := ClickSourceKind.keyboard } =
      [Effect.dispatch (DispatcherCall.changeFileIncluded
        self.props.repository file
        (decide (file.selection.getSelectionType = DiffSelectionType.None)))] := by
  have h' : self.props.changes.workingDirectory.files[row]? = some file := by
    rw [← List.get?_eq_getElem?]
    exact h
  simp [onChangedItemClick, onToggleInclude, h']

/-- C6 witness: at row 0 of a component whose single file has selection
state none, the keyboard toggle dispatches inclusion true. -/
theorem c6_keyboard_toggle_inclusion_witness :
    onChangedItemClick w6Self 0 { kind := ClickSourceKind.keyboard } =
      [Effect.dispatch (DispatcherCall.changeFileIncluded
        w6Self.props.repository w6File true)] :=
  (c6_keyboard_toggle_inclusion w6Self 0 w6File (by decide)).trans (by decide)

/-- C7: a Ctrl+Tab key event while History is the selected section
dispatches a change-section request to Changes (and from Changes to
History) and suppresses the default action; any key event that is not the
Ctrl+Tab combination dispatches nothing and leaves the default action
unsuppressed. -/
theorem c7_ctrl_tab_section_toggle (p q : IRepositoryProps)
    (tabEvent otherEvent : KeyboardEvent)
    (hp : p.state.selectedSection = RepositorySection.History)
    (hq : q.state.selectedSection = RepositorySection.Changes)
    (htab : tabEvent.ctrlKey = true ∧ tabEvent.key = "Tab")
    (hother : (otherEvent.ctrlKey && (otherEvent.key == "Tab")) = false) :
    onKeyDown p tabEvent =
      ([Effect.dispatch (DispatcherCall.changeRepositorySection
        p.repository RepositorySection.Changes)], true) ∧
    onKeyDown q tabEvent =
      ([Effect.dispatch (DispatcherCall.changeRepositorySection
        q.repository RepositorySection.History)], true) ∧
    onKeyDown p otherEvent = ([], false) ∧
    onKeyDown q otherEvent = ([], false) := by
  obtain ⟨hc, hk⟩ := htab
  refine ⟨?_, ?_, ?_, ?_⟩ <;>
    simp [onKeyDown, hc, hk, hp, hq, hother,
      RepositorySection.Changes, RepositorySection.History]

/-- C7 witness: concrete History- and Changes-selected props, the Ctrl+Tab
event and a Ctrl+A event. -/
theorem c7_ctrl_tab_section_toggle_witness :
    onKeyDown w7p w7TabEvent =
      ([Effect.dispatch (DispatcherCall.changeRepositorySection
        w7p.repository RepositorySection.Changes)], true) ∧
    onKeyDown w7q w7TabEvent =
      ([Effect.dispatch (DispatcherCall.changeRepositorySection
        w7q.repository RepositorySection.History)], true) ∧
    onKeyDown w7p w7OtherEvent = ([], false) ∧
    onKeyDown w7q w7OtherEvent = ([], false) :=
  c7_ctrl_tab_section_toggle w7p w7q w7TabEvent w7OtherEvent rfl rfl
    ⟨rfl, rfl⟩ (by decide)

/-- C8 counterexample: a commit author whose email is the empty string,
with a profile keyed exactly at the lower-cased email (the empty string):
the key is present in the mapping yet the rendered profile is null,
because the code's truthiness test on the email skips the lookup —
refuting "the user profile shown ... is the mapping's value at the
lower-cased email when that key is present". -/
theorem c8_empty_email_profile_missed :
    c8Self.props.commitAuthor = some c8Author ∧
    c8Self.props.gitHubUsers.lookup (toLowerCase c8Author.email) =
      some c8User ∧
    sidebarGitHubUser c8Self = none := by
  refine ⟨rfl, rfl, rfl⟩

/-- C8 (amended): the profile shown in the sidebar is the gitHubUsers
mapping's value at the lower-cased author email whenever the author
identity is present with a non-empty email (so lookups are
case-insensitive in the email), and null when the author identity is null
or the author email is the empty string (which JavaScript treats as
falsy, skipping the lookup). -/
theorem c8_author_profile_lookup (s1 s2 s3 : ChangesSidebar)
    (author authorE : CommitIdentity)
    (h1 : s1.props.commitAuthor = some author)
    (h1e : author.email ≠ "")
    (h2 : s2.props.commitAuthor = none)
    (h3 : s3.props.commitAuthor = some authorE)
    (h3e : authorE.email = "") :
    sidebarGitHubUser s1 =
      s1.props.gitHubUsers.lookup (toLowerCase author.email) ∧
    sidebarGitHubUser s2 = none ∧
    sidebarGitHubUser s3 = none := by
  refine ⟨?_, ?_, ?_⟩
  · simp [sidebarGitHubUser, h1, h1e]
  · simp [sidebarGitHubUser, h2]
  · simp [sidebarGitHubUser, h3, h3e]

/-- C8 witness: the author email "Jane@Example.com" resolves the profile
keyed "jane@example.com"; a null author and an empty-email author resolve
no profile. -/
theorem c8_author_profile_lookup_witness :
    sidebarGitHubUser w8s1 = some w8User ∧
    sidebarGitHubUser w8s2 = none ∧
    sidebarGitHubUser w8s3 = none := by
  have h := c8_author_profile_lookup w8s1 w8s2 w8s3 w8Author w8Author3
    rfl (by decide) rfl rfl rfl
  exact ⟨h.1.trans (by decide), h.2.1, h.2.2⟩

/-- C9: every rendering of `RepositoryView` renders both the
changes-sidebar and the history-sidebar side by side regardless of the
selected section, and the content panel is never part of the rendered
output. -/
theorem c9_both_sidebars_no_content (p : IRepositoryProps) :
    ∃ out, render p = Except.ok out ∧
      SidebarPanel.changesSidebarPanel p.repository (p.sidebarWidth - 1) ∈
        out.panels ∧
      SidebarPanel.historySidebarPanel p.repository ∈ out.panels ∧
      out.content = none := by
  refine ⟨{ panels := renderSidebar p, content := none }, rfl, ?_, ?_, rfl⟩ <;>
    simp [renderSidebar]

/-- C10: whenever a property update triggers a provider-list rebuild, the
stored list is the one built from the previous (pre-update) props: its
emoji provider carries the previous emoji map, and the account bound to
the user provider is the one found in the previous accounts list by the
linked repository's endpoint. -/
theorem c10_rebuild_reads_previous_props (self : ChangesSidebar)
    (props : IChangesSidebarProps)
    (h : rebuildCondition self props = true) :
    (receiveProps self props).autocompletionProviders =
      some { refId := self.nextRefId
             providers := buildAutocompletionProviders self props } ∧
    emojiMapsOf (buildAutocompletionProviders self props) =
      [self.props.emoji] ∧
    userProviderAccountsOf (buildAutocompletionProviders self props) =
      (match props.repository.gitHubRepository with
       | none => []
       | some gh =>
         [self.props.accounts.accounts.find?
           (fun a => a.endpoint == gh.endpoint)]) := by
  refine ⟨by simp [receiveProps, h], ?_, ?_⟩ <;>
    cases hgh : props.repository.gitHubRepository <;>
      simp [buildAutocompletionProviders, hgh, emojiMapsOf,
        userProviderAccountsOf]

/-- C10 witness: an update that changes repository id, emoji map and
accounts list at once — the rebuilt providers carry the previous emoji map
(different from the incoming one) and an account that exists only in the
previous accounts list (the incoming one is empty). -/
theorem c10_rebuild_reads_previous_props_witness :
    emojiMapsOf (buildAutocompletionProviders w10Self w10NewProps) =
      [w10OldProps.emoji] ∧
    w10OldProps.emoji ≠ w10NewProps.emoji ∧
    userProviderAccountsOf (buildAutocompletionProviders w10Self w10NewProps) =
      [some w10Account] ∧
    w10NewProps.accounts.accounts = [] := by
  have h := c10_rebuild_reads_previous_props w10Self w10NewProps (by decide)
  exact ⟨h.2.1, by decide, h.2.2.trans (by decide), rfl⟩

end Welder
